import Mathlib

/-!
Verification development for the ebus_mqtt decoding pipeline.

The definitions below are a shallow embedding of the Rust sources:
machine bytes are modelled as Nat values below 256, u8/u16 wrap-around is
written as an explicit mod, the i8 field incoming_data_len is modelled as
an Int with explicit two-complement wrap, and the mutable-callback side
effect is modelled by accumulating the emitted (request, response) pairs
in an explicit list field.
-/

/-- Protocol constant SYN, from src/ebus/parser.rs. -/
def SYN : Nat := 0xAA

/-- Protocol constant ACK, from src/ebus/parser.rs. -/
def ACK : Nat := 0x00

/-- Protocol constant NACK, from src/ebus/parser.rs. -/
def NACK : Nat := 0xFF

/-- Protocol constant BROADCAST, from src/ebus/parser.rs. -/
def BROADCAST : Nat := 0xFE

/-- The fixed 256-entry CRC lookup table, transcribed from src/main.rs
(CRC_LOOKUP_TABLE, lines 62-79). -/
def CRC_LOOKUP_TABLE : List Nat := [
  0x00, 0x9b, 0xad, 0x36, 0xc1, 0x5a, 0x6c, 0xf7, 0x19, 0x82, 0xb4, 0x2f, 0xd8, 0x43, 0x75, 0xee,
  0x32, 0xa9, 0x9f, 0x04, 0xf3, 0x68, 0x5e, 0xc5, 0x2b, 0xb0, 0x86, 0x1d, 0xea, 0x71, 0x47, 0xdc,
  0x64, 0xff, 0xc9, 0x52, 0xa5, 0x3e, 0x08, 0x93, 0x7d, 0xe6, 0xd0, 0x4b, 0xbc, 0x27, 0x11, 0x8a,
  0x56, 0xcd, 0xfb, 0x60, 0x97, 0x0c, 0x3a, 0xa1, 0x4f, 0xd4, 0xe2, 0x79, 0x8e, 0x15, 0x23, 0xb8,
  0xc8, 0x53, 0x65, 0xfe, 0x09, 0x92, 0xa4, 0x3f, 0xd1, 0x4a, 0x7c, 0xe7, 0x10, 0x8b, 0xbd, 0x26,
  0xfa, 0x61, 0x57, 0xcc, 0x3b, 0xa0, 0x96, 0x0d, 0xe3, 0x78, 0x4e, 0xd5, 0x22, 0xb9, 0x8f, 0x14,
  0xac, 0x37, 0x01, 0x9a, 0x6d, 0xf6, 0xc0, 0x5b, 0xb5, 0x2e, 0x18, 0x83, 0x74, 0xef, 0xd9, 0x42,
  0x9e, 0x05, 0x33, 0xa8, 0x5f, 0xc4, 0xf2, 0x69, 0x87, 0x1c, 0x2a, 0xb1, 0x46, 0xdd, 0xeb, 0x70,
  0x0b, 0x90, 0xa6, 0x3d, 0xca, 0x51, 0x67, 0xfc, 0x12, 0x89, 0xbf, 0x24, 0xd3, 0x48, 0x7e, 0xe5,
  0x39, 0xa2, 0x94, 0x0f, 0xf8, 0x63, 0x55, 0xce, 0x20, 0xbb, 0x8d, 0x16, 0xe1, 0x7a, 0x4c, 0xd7,
  0x6f, 0xf4, 0xc2, 0x59, 0xae, 0x35, 0x03, 0x98, 0x76, 0xed, 0xdb, 0x40, 0xb7, 0x2c, 0x1a, 0x81,
  0x5d, 0xc6, 0xf0, 0x6b, 0x9c, 0x07, 0x31, 0xaa, 0x44, 0xdf, 0xe9, 0x72, 0x85, 0x1e, 0x28, 0xb3,
  0xc3, 0x58, 0x6e, 0xf5, 0x02, 0x99, 0xaf, 0x34, 0xda, 0x41, 0x77, 0xec, 0x1b, 0x80, 0xb6, 0x2d,
  0xf1, 0x6a, 0x5c, 0xc7, 0x30, 0xab, 0x9d, 0x06, 0xe8, 0x73, 0x45, 0xde, 0x29, 0xb2, 0x84, 0x1f,
  0xa7, 0x3c, 0x0a, 0x91, 0x66, 0xfd, 0xcb, 0x50, 0xbe, 0x25, 0x13, 0x88, 0x7f, 0xe4, 0xd2, 0x49,
  0x95, 0x0e, 0x38, 0xa3, 0x54, 0xcf, 0xf9, 0x62, 0x8c, 0x17, 0x21, 0xba, 0x4d, 0xd6, 0xe0, 0x7b]

/-- CRC step, from src/main.rs update_crc (lines 81-83):
table[crc as usize] XOR value.  The u8 index is always below 256 on every
call site, so the getD default is never reached there. -/
def update_crc (crc value : Nat) : Nat :=
  Nat.xor (CRC_LOOKUP_TABLE.getD crc 0) value

/-- Left-fold checksum as the spec words it (section 4.1):
checksum(bytes) = fold(crc8, start=0, bytes).  Spec-side definition used to
compare with the source-side calc_crc8 functions. -/
def checksum (bytes : List Nat) : Nat :=
  bytes.foldl update_crc 0

/-- The request half of a telegram, from struct EbusRequest in
src/ebus/parser.rs.  The defaults model EbusParser::new and
EbusRequest::clear, which zero every field. -/
structure EbusRequest where
  src : Nat := 0
  dest : Nat := 0
  pbsb : Nat := 0
  len : Nat := 0
  data : List Nat := []
  crc : Nat := 0
  deriving DecidableEq

/-- The response half of a telegram, from struct EbusResponse in
src/ebus/parser.rs. -/
structure EbusResponse where
  len : Nat := 0
  data : List Nat := []
  crc : Nat := 0
  deriving DecidableEq

/-- EbusRequest::calc_crc8 from src/ebus/parser.rs lines 76-87: chained
update_crc over src, dest, pbsb high byte, pbsb low byte, len, then the
payload bytes. -/
def EbusRequest.calc_crc8 (r : EbusRequest) : Nat :=
  let crc : Nat := 0
  let crc := update_crc crc r.src
  let crc := update_crc crc r.dest
  let crc := update_crc crc ((r.pbsb >>> 8) % 256)
  let crc := update_crc crc (r.pbsb &&& 0xFF)
  let crc := update_crc crc r.len
  r.data.foldl update_crc crc

/-- EbusResponse::calc_crc8 from src/ebus/parser.rs lines 128-135: chained
update_crc over len then the payload bytes. -/
def EbusResponse.calc_crc8 (s : EbusResponse) : Nat :=
  let crc : Nat := 0
  let crc := update_crc crc s.len
  s.data.foldl update_crc crc

/-- Logical stream item, from enum EbusData in src/ebus/parser.rs. -/
inductive EbusData where
  | EnhancedProtocol (cmd data : Nat)
  | PureByte (b : Nat)
  deriving DecidableEq

/-- decode_enhproto_tuple from src/ebus/parser.rs lines 197-201, under the
release-mode u8 wrap-around semantics: cmd = (b1-0xC0)>>2 and
data = ((b1-0xC0)<<6) + (b2-0x80) with every u8 operation taken mod 256. -/
def decode_enhproto_tuple (b1 b2 : Nat) : Nat × Nat :=
  ((b1 - 0xC0) >>> 2, ((((b1 - 0xC0) <<< 6) % 256) + (b2 - 0x80)) % 256)

/-- The data expression of decode_enhproto_tuple exactly as written in the
source, before any u8 truncation; values of 256 or more overflow the u8
arithmetic of the Rust source (a panic in debug builds, a wrap in release
builds). -/
def enhDataRaw (b1 b2 : Nat) : Nat :=
  ((b1 - 0xC0) <<< 6) + (b2 - 0x80)

/-- The discriminant values of enum EnhProtoResponse in src/ebus/parser.rs
lines 35-44: Resetted 0, Received 1, Started 2, Info 3, Failed 0x0a,
ErrorEbus 0x0b, ErrorHost 0x0c. -/
def EnhProtoResponseCodes : List Nat := [0, 1, 2, 3, 0x0a, 0x0b, 0x0c]

/-- Whether a command code is one of the seven defined adapter status codes;
the source transmutes the raw cmd into EnhProtoResponse without any such
check (src/ebus/parser.rs line 271). -/
def validEnhCmd (c : Nat) : Bool :=
  EnhProtoResponseCodes.contains c

/-- The deframing loop of EbusParser::parse_incoming_data
(src/ebus/parser.rs lines 253-289), as a function from the queued raw bytes
to the EbusData items pushed onto the protocol buffer.  Faithful to the
source control flow: a byte with both top bits set pops a second byte; if
the queue is already empty the loop breaks with the first byte consumed; if
the second byte lacks the top bit, both bytes are consumed and only an
error is logged; on a valid pair only command 1 (Received) forwards an
item, the other defined commands are logged only.  Command codes outside
the defined enum hit undefined behaviour in the Rust source (transmute);
they are modelled here as logged-only, matching every defined arm that
does not forward. -/
def deframe : List Nat → List EbusData
  | [] => []
  | [b1] =>
      if b1 &&& 0xC0 = 0xC0 then []
      else [EbusData.PureByte b1]
  | b1 :: b2 :: rest =>
      if b1 &&& 0xC0 = 0xC0 then
        if b2 &&& 0x80 = 0x80 then
          if (decode_enhproto_tuple b1 b2).1 = 1 then
            EbusData.EnhancedProtocol (decode_enhproto_tuple b1 b2).1
              (decode_enhproto_tuple b1 b2).2 :: deframe rest
          else deframe rest
        else deframe rest
      else EbusData.PureByte b1 :: deframe (b2 :: rest)

/-- The state enumeration from src/ebus/parser.rs lines 14-25. -/
inductive EbusParserState where
  | WaitingForSYN
  | WaitingForSrc
  | WaitingForDest
  | WaitingForPB
  | WaitingForSB
  | WaitingForLen
  | WaitingForData
  | WaitingForCRC
  | WaitingForACK
  | WaitingForResponse
  deriving DecidableEq

/-- The state-machine portion of struct EbusParser (src/ebus/parser.rs
lines 181-192), without the two byte queues, which are handled by
deframe and the buffer recursion; emitted accumulates the callback
invocations, each carrying the request and the optional response passed
to the callback. -/
structure EbusCore where
  state : EbusParserState := EbusParserState.WaitingForSYN
  request : EbusRequest := {}
  response : EbusResponse := {}
  incoming_data_len : Int := 0
  got_response : Bool := false
  ack_received : Bool := false
  got_broadcast : Bool := false
  emitted : List (EbusRequest × Option EbusResponse) := []
  deriving DecidableEq

/-- EbusParser::clear (src/ebus/parser.rs lines 232-242) restricted to the
state-machine fields; the queue clearing it also performs is modelled at
the call sites (the buffer recursion stops, and the incoming queue is
already empty whenever clear can run). -/
def clearCore (c : EbusCore) : EbusCore :=
  { c with
      state := EbusParserState.WaitingForSYN
      request := {}
      response := {}
      incoming_data_len := 0
      got_response := false
      ack_received := false
      got_broadcast := false }

/-- EbusParser::process together with process_frame (src/ebus/parser.rs
lines 447-468): invoke the callback with the request and, when
got_response is set, the response; then reset got_response and
ack_received and clear both request and response.  Note the source does
not reset got_broadcast here. -/
def process (c : EbusCore) : EbusCore :=
  let out := if c.got_response then (c.request, some c.response)
             else (c.request, (none : Option EbusResponse))
  { c with
      emitted := c.emitted ++ [out]
      got_response := false
      ack_received := false
      response := {}
      request := {} }

/-- Two-complement i8 decrement, modelling incoming_data_len -= 1 under
release-mode wrap-around. -/
def i8Dec (v : Int) : Int :=
  if v = -128 then 127 else v - 1

/-- byte as i8: reinterpret a byte value below 256 as a signed i8. -/
def i8OfByte (b : Nat) : Int :=
  if b < 128 then (b : Int) else (b : Int) - 256

/-- Extract the data byte from a buffer item, as the deencapsulation at the
top of EbusParser::parse_protocol_buffer (src/ebus/parser.rs lines
300-303). -/
def unwrapEbusData : EbusData → Nat
  | EbusData.PureByte b => b
  | EbusData.EnhancedProtocol _ d => d

/-- One transition of the telegram state machine on a logical byte,
transcribed arm by arm from the match in EbusParser::parse_protocol_buffer
(src/ebus/parser.rs lines 306-443).  The Bool result records whether
EbusParser::clear ran during the transition, which in the source also
empties the protocol buffer and so stops the enclosing loop. -/
def stepByte (c : EbusCore) (byte : Nat) : EbusCore × Bool :=
  match c.state with
  | EbusParserState.WaitingForSYN =>
      if byte = SYN then ({ c with state := EbusParserState.WaitingForSrc }, false)
      else (c, false)
  | EbusParserState.WaitingForSrc =>
      if byte ≠ SYN then
        ({ c with request := { c.request with src := byte },
                  state := EbusParserState.WaitingForDest }, false)
      else (c, false)
  | EbusParserState.WaitingForDest =>
      let c := { c with request := { c.request with dest := byte } }
      let c := if c.request.dest = BROADCAST then { c with got_broadcast := true } else c
      ({ c with state := EbusParserState.WaitingForPB }, false)
  | EbusParserState.WaitingForPB =>
      ({ c with request := { c.request with pbsb := (byte <<< 8) % 65536 },
                state := EbusParserState.WaitingForSB }, false)
  | EbusParserState.WaitingForSB =>
      ({ c with request := { c.request with pbsb := c.request.pbsb ||| byte },
                state := EbusParserState.WaitingForLen }, false)
  | EbusParserState.WaitingForLen =>
      if byte > 0x10 then (clearCore c, true)
      else
        let c := if c.got_response then { c with response := { c.response with len := byte } }
                 else { c with request := { c.request with len := byte } }
        ({ c with incoming_data_len := i8OfByte byte,
                  state := EbusParserState.WaitingForData }, false)
  | EbusParserState.WaitingForData =>
      if c.got_response then
        let c := { c with response := { c.response with data := c.response.data ++ [byte] },
                          incoming_data_len := i8Dec c.incoming_data_len }
        (if c.incoming_data_len = 0 then { c with state := EbusParserState.WaitingForCRC }
         else c, false)
      else
        let c := { c with request := { c.request with data := c.request.data ++ [byte] },
                          incoming_data_len := i8Dec c.incoming_data_len }
        (if c.incoming_data_len = 0 then { c with state := EbusParserState.WaitingForCRC }
         else c, false)
  | EbusParserState.WaitingForCRC =>
      if c.got_response then
        let c := { c with response := { c.response with crc := byte } }
        let r := if c.response.calc_crc8 = byte then (c, false) else (clearCore c, true)
        ({ r.1 with state := EbusParserState.WaitingForACK }, r.2)
      else
        let c := { c with request := { c.request with crc := byte } }
        let r := if c.request.calc_crc8 = byte then (c, false) else (clearCore c, true)
        ({ r.1 with state := EbusParserState.WaitingForACK }, r.2)
  | EbusParserState.WaitingForACK =>
      if byte = ACK then
        let c := { c with ack_received := true }
        if c.got_response then
          (process { c with state := EbusParserState.WaitingForSYN }, false)
        else ({ c with state := EbusParserState.WaitingForResponse }, false)
      else if byte = NACK then
        (clearCore { c with state := EbusParserState.WaitingForSYN }, true)
      else if byte = SYN then
        let c := if c.got_broadcast then process c else c
        ({ c with state := EbusParserState.WaitingForSrc }, false)
      else (clearCore c, true)
  | EbusParserState.WaitingForResponse =>
      if byte = SYN then
        (process { c with state := EbusParserState.WaitingForSYN }, false)
      else
        ({ c with got_response := true,
                  response := { c.response with len := byte },
                  incoming_data_len := i8OfByte byte,
                  state := EbusParserState.WaitingForData }, false)

/-- The loop of EbusParser::parse_protocol_buffer (src/ebus/parser.rs lines
291-445): pop buffer items until the buffer is empty; a transition that ran
clear empties the buffer, which stops the loop. -/
def parseBufferLoop : EbusCore → List EbusData → EbusCore
  | c, [] => c
  | c, item :: rest =>
      if (stepByte c (unwrapEbusData item)).2 then (stepByte c (unwrapEbusData item)).1
      else parseBufferLoop (stepByte c (unwrapEbusData item)).1 rest

/-- Run the telegram state machine over a list of logical bytes, i.e.
parse_protocol_buffer applied to a buffer of plain data items. -/
def runLogicalBytes (c : EbusCore) (bytes : List Nat) : EbusCore :=
  parseBufferLoop c (bytes.map EbusData.PureByte)

/-- Whether running the buffer from the given core triggers no
EbusParser::clear anywhere along the way. -/
def NoClearRun : EbusCore → List EbusData → Bool
  | _, [] => true
  | c, item :: rest =>
      if (stepByte c (unwrapEbusData item)).2 then false
      else NoClearRun (stepByte c (unwrapEbusData item)).1 rest

/-- The whole parser: the state-machine core plus the incoming raw-byte
queue (struct EbusParser, src/ebus/parser.rs lines 181-192).  The protocol
buffer is always empty between calls, since parse_protocol_buffer drains it
or clear empties it, so it is not stored. -/
structure EbusParser where
  core : EbusCore := {}
  incoming : List Nat := []
  deriving DecidableEq

/-- EbusParser::parse_incoming_data (src/ebus/parser.rs lines 253-289):
deframe the whole incoming queue into buffer items, then run
parse_protocol_buffer on them.  The deframing loop always drains the
incoming queue: the only early break happens when a pop on the already
empty queue fails. -/
def parse_incoming_data (p : EbusParser) : EbusParser :=
  { core := parseBufferLoop p.core (deframe p.incoming), incoming := [] }

/-- EbusParser::feed (src/ebus/parser.rs lines 244-251): append the chunk
to the incoming queue and parse only once more than 64 bytes are queued. -/
def feed (p : EbusParser) (chunk : List Nat) : EbusParser :=
  let q := { p with incoming := p.incoming ++ chunk }
  if q.incoming.length > 64 then parse_incoming_data q else q

/-- Feed a list of chunks in order. -/
def feedAll (p : EbusParser) (chunks : List (List Nat)) : EbusParser :=
  chunks.foldl feed p

/-- Logical bytes of a request telegram with src 0x03, dest 0x10, command
0x0700, declared length 1, payload [0x05], but a corrupted checksum byte
0x4D (the correct checksum of these fields is 0xC2). -/
def c1BadSeq : List Nat := [0xAA, 0x03, 0x10, 0x07, 0x00, 0x01, 0x05, 0x4D]

/-- Logical bytes of the length-zero request telegram of the spec test:
src 0x03, dest 0x10, command 0x0700, length 0, correct checksum 0xD2,
followed by ACK and SYN. -/
def lenZeroSeq : List Nat := [0xAA, 0x03, 0x10, 0x07, 0x00, 0x00, 0xD2, 0x00, 0xAA]

/-- Raw bytes of a valid request telegram with src 0x03, dest 0x10, command
0x0700, length 1, payload [0x40], correct checksum 0x87, followed by ACK
and SYN; every byte is below 0xC0 except SYN (0xAA has only one top bit),
so the deframer forwards each byte unchanged. -/
def goodSeq : List Nat := [0xAA, 0x03, 0x10, 0x07, 0x00, 0x01, 0x40, 0x87, 0x00, 0xAA]

/-- Logical bytes of a valid request telegram followed by ACK and then a
declared response length of 0x11 (17, above the 0x10 bound). -/
def c6Seq : List Nat := [0xAA, 0x03, 0x10, 0x07, 0x00, 0x01, 0x05, 0xC2, 0x00, 0x11]

/-- Logical bytes of a broadcast telegram (dest 0xFE, length 1, payload
[0x05], correct checksum 0x0B) terminated by SYN, followed by a
non-broadcast telegram (src 0x04, dest 0x10, command 0x0700, length 1,
payload [0x06], correct checksum 0xD7) terminated by SYN with no ACK. -/
def c7Seq : List Nat :=
  [0xAA, 0x03, 0xFE, 0x07, 0x00, 0x01, 0x05, 0x0B, 0xAA,
   0x04, 0x10, 0x07, 0x00, 0x01, 0x06, 0xD7, 0xAA]

/-- A 71-byte input: 61 idle zero bytes of noise followed by the valid
telegram goodSeq.  Long enough that feeding it as one chunk crosses the
64-byte parse threshold. -/
def c8Seq : List Nat := List.replicate 61 0x00 ++ goodSeq

/-- Split a byte sequence into 1-byte chunks. -/
def chunks1 (l : List Nat) : List (List Nat) := l.map (fun b => [b])

/-- Split a byte sequence into 3-byte chunks (last chunk may be shorter). -/
def chunks3 : List Nat → List (List Nat)
  | [] => []
  | [a] => [[a]]
  | [a, b] => [[a, b]]
  | a :: b :: c :: rest => [a, b, c] :: chunks3 rest

/-- Modelled from the spec: the matcher and extractor source is not under
src (only the parser, the logger and a historical main are).  Prefix
acceptance of the pattern language of spec section 4.4: the value starts
with the given characters. -/
def hexPrefixOk : List Char → List Char → Bool
  | [], _ => true
  | _ :: _, [] => false
  | p :: ps, v :: vs => p == v && hexPrefixOk ps vs

/-- Modelled from the spec: position-by-position comparison of a literal
pattern with a value; a star at a position matches any character there, the
lengths must agree (spec section 4.4). -/
def posMatch : List Char → List Char → Bool
  | [], [] => true
  | [], _ :: _ => false
  | _ :: _, [] => false
  | p :: ps, v :: vs => (p == '*' || p == v) && posMatch ps vs

/-- Modelled from the spec: the pattern language of the message matcher
(spec section 4.4).  A lone star matches any value; a pattern opening with
a caret is a prefix pattern over the remaining characters; any other
pattern is compared position by position with positional star wildcards. -/
def patMatches : List Char → List Char → Bool
  | ['*'], _ => true
  | '^' :: ps, value => hexPrefixOk ps value
  | pat, value => posMatch pat value

/-- Modelled from the spec: the request-match patterns of a message
definition, one per field (spec section 6 catalog: src, dst, pbsb, data). -/
structure RequestMatch where
  src : List Char
  dst : List Char
  pbsb : List Char
  data : List Char
  deriving DecidableEq

/-- Modelled from the spec: the four fields of a completed telegram
rendered as uppercase hex strings, the values the matcher compares. -/
structure TelegramHex where
  src : List Char
  dst : List Char
  pbsb : List Char
  data : List Char
  deriving DecidableEq

/-- Modelled from the spec: a definition matches a telegram iff each of its
request-match field patterns accepts the corresponding rendered field
(spec section 4.4). -/
def defMatches (m : RequestMatch) (t : TelegramHex) : Bool :=
  patMatches m.src t.src && patMatches m.dst t.dst &&
  patMatches m.pbsb t.pbsb && patMatches m.data t.data

/-- Claim C1: the claim says a CRC mismatch in WaitingForCRC resets the
parser to WaitingForSYN and never proceeds to WaitingForACK.  The code
disagrees: after the mismatch branch runs clear, the arm unconditionally
sets the state to WaitingForACK (src/ebus/parser.rs line 393), so the
parser ends the corrupted telegram in WaitingForACK; a following ACK and
SYN then even fire the callback once with the emptied request. -/
theorem c1_crc_mismatch_enters_waiting_for_ack :
    (runLogicalBytes {} c1BadSeq).state = EbusParserState.WaitingForACK ∧
    (runLogicalBytes {} c1BadSeq).state ≠ EbusParserState.WaitingForSYN ∧
    (runLogicalBytes {} c1BadSeq).emitted = [] ∧
    (runLogicalBytes (runLogicalBytes {} c1BadSeq) [0x00, 0xAA]).emitted
      = [({}, none)] := by decide

/-- Claim C2: the claim says processing never panics and never executes
undefined behaviour.  The code disagrees: the escaped pair (0xD0, 0x80)
produces command code 4, which is none of the seven defined adapter status
codes yet is transmuted into EnhProtoResponse (undefined behaviour), and
its data expression ((b1-0xC0)<<6)+(b2-0x80) evaluates to 1024, which
overflows the u8 arithmetic of the source (a panic in debug builds); a
declared length of 0 also drives the remaining-bytes counter to -3. -/
theorem c2_undefined_cmd_and_overflow_reachable :
    (decode_enhproto_tuple 0xD0 0x80).1 = 4 ∧
    validEnhCmd (decode_enhproto_tuple 0xD0 0x80).1 = false ∧
    enhDataRaw 0xD0 0x80 = 1024 ∧ 255 < enhDataRaw 0xD0 0x80 ∧
    (runLogicalBytes {} lenZeroSeq).incoming_data_len = -3 ∧
    (runLogicalBytes {} lenZeroSeq).incoming_data_len < 0 := by decide

/-- Claim C3: the claim says the valid length-zero telegram followed by ACK
and SYN fires the callback exactly once.  The code disagrees: a declared
length of 0 moves the machine to WaitingForData with the counter at 0, so
the checksum, ACK and SYN bytes are all swallowed as payload while the
counter goes negative, the CRC state is never reached and the callback
fires zero times. -/
theorem c3_len_zero_telegram_never_delivered :
    (runLogicalBytes {} lenZeroSeq).emitted = [] ∧
    (runLogicalBytes {} lenZeroSeq).state = EbusParserState.WaitingForData := by decide

/-- Claim C4: the claim says a trailing escape-start byte is left at the
front of the queue until its pair byte arrives, so the pair decodes the
same wherever the chunk boundary falls.  The code disagrees: the loop pops
the byte, fails to pop a second one and breaks, losing the byte, so the
queue is left empty and a later 0x85 passes through as a plain byte
instead of completing the pair (which, unsplit, decodes to the
enhanced-protocol item with command 1 and data 0x45). -/
theorem c4_pending_escape_byte_consumed_and_lost :
    (parse_incoming_data { incoming := [0xC5] }).incoming = [] ∧
    deframe [0xC5] = [] ∧
    deframe ([0xC5] ++ [0x85]) = [EbusData.EnhancedProtocol 1 0x45] ∧
    deframe [0xC5] ++ deframe [0x85] = [EbusData.PureByte 0x85] := by decide

/-- Claim C5 counterexample: the claim says an invalid escape pair discards
only the first byte and reprocesses the second, so (0xC5, 0x31) should
leave the plain data byte 0x31; the code consumes both bytes and forwards
nothing. -/
theorem c5_invalid_pair_second_byte_not_reprocessed :
    deframe [0xC5, 0x31] = [] ∧
    deframe [0xC5, 0x31] ≠ [EbusData.PureByte 0x31] := by decide

/-- Claim C5 as amended: on an invalid escape pair (first byte with both
top bits set, second byte with the top bit unset) the deframer discards
both bytes and resumes with the remainder of the queue. -/
theorem c5_invalid_pair_discards_both_bytes (b1 b2 : Nat) (rest : List Nat)
    (h1 : b1 &&& 0xC0 = 0xC0) (h2 : ¬ b2 &&& 0x80 = 0x80) :
    deframe (b1 :: b2 :: rest) = deframe rest := by
  simp [deframe, h1, h2]

/-- Witness for the amended claim C5 at the concrete pair (0xC5, 0x31)
followed by 0x12. -/
theorem c5_invalid_pair_discards_both_bytes_witness :
    (0xC5 &&& 0xC0 = 0xC0) ∧ ¬(0x31 &&& 0x80 = 0x80) ∧
    deframe [0xC5, 0x31, 0x12] = deframe [0x12] :=
  ⟨by decide, by decide,
   c5_invalid_pair_discards_both_bytes 0xC5 0x31 [0x12] (by decide) (by decide)⟩

/-- Claim C6: the claim says a non-SYN byte in WaitingForResponse is
validated like a request length, dropping the telegram and resetting to
WaitingForSYN when it exceeds 0x10.  The code disagrees: the arm accepts
any non-SYN byte as the response length with no bound check, so the byte
0x11 sets response.len to 0x11 and the machine proceeds to WaitingForData
expecting 17 payload bytes. -/
theorem c6_response_length_not_validated :
    (runLogicalBytes {} c6Seq).state = EbusParserState.WaitingForData ∧
    (runLogicalBytes {} c6Seq).state ≠ EbusParserState.WaitingForSYN ∧
    (runLogicalBytes {} c6Seq).got_response = true ∧
    (runLogicalBytes {} c6Seq).response.len = 0x11 ∧
    (runLogicalBytes {} c6Seq).incoming_data_len = 17 := by decide

/-- Claim C7: the claim says every emission clears got_response,
ack_received and got_broadcast, so no state from one telegram influences
the next.  The code disagrees: process never resets got_broadcast, so
after a broadcast telegram is emitted the flag stays set, and the
following non-broadcast telegram (dest 0x10) terminated by SYN with no
ACK is also emitted. -/
theorem c7_got_broadcast_survives_emission :
    (runLogicalBytes {} (c7Seq.take 9)).emitted.length = 1 ∧
    (runLogicalBytes {} (c7Seq.take 9)).got_broadcast = true ∧
    (runLogicalBytes {} c7Seq).emitted.length = 2 ∧
    ((runLogicalBytes {} c7Seq).emitted.getD 1 ({}, none)).1.dest = 0x10 ∧
    ((runLogicalBytes {} c7Seq).emitted.getD 1 ({}, none)).2 = none ∧
    (runLogicalBytes {} c7Seq).got_broadcast = true := by decide

set_option maxRecDepth 4096 in
/-- Claim C8 counterexample: feeding the same 71-byte sequence as one
chunk delivers one telegram, while feeding it as 1-byte or 3-byte chunks
delivers none, because feed only parses once more than 64 bytes are
queued. -/
theorem c8_chunking_changes_delivered_telegrams :
    (feedAll {} [c8Seq]).core.emitted.length = 1 ∧
    (feedAll {} (chunks1 c8Seq)).core.emitted.length = 0 ∧
    (feedAll {} (chunks3 c8Seq)).core.emitted.length = 0 := by decide

/-- Claim C8 as amended: the telegram state machine itself is insensitive
to how the logical bytes are grouped into parse passes as long as no
reset runs: processing a concatenation equals processing the two segments
in turn whenever the first segment triggers no clear. -/
theorem c8_no_reset_run_is_compositional (c : EbusCore) (xs ys : List EbusData)
    (h : NoClearRun c xs = true) :
    parseBufferLoop c (xs ++ ys) = parseBufferLoop (parseBufferLoop c xs) ys := by
  induction xs generalizing c with
  | nil => rfl
  | cons item rest ih =>
      by_cases hc : (stepByte c (unwrapEbusData item)).2 = true
      · exfalso
        simp [NoClearRun, hc] at h
      · simp only [Bool.not_eq_true] at hc
        simp only [NoClearRun, hc, Bool.false_eq_true, if_false] at h
        simp only [List.cons_append, parseBufferLoop, hc, Bool.false_eq_true, if_false]
        exact ih _ h

/-- Witness for the amended claim C8 at a concrete reset-free segment. -/
theorem c8_no_reset_run_is_compositional_witness :
    NoClearRun {} [EbusData.PureByte 0xAA] = true ∧
    parseBufferLoop {} ([EbusData.PureByte 0xAA] ++ [EbusData.PureByte 0x03]) =
      parseBufferLoop (parseBufferLoop {} [EbusData.PureByte 0xAA])
        [EbusData.PureByte 0x03] :=
  ⟨by decide,
   c8_no_reset_run_is_compositional {} [EbusData.PureByte 0xAA]
     [EbusData.PureByte 0x03] (by decide)⟩

/-- Claim C9: the spec-modelled pattern language behaves as claimed: a
lone star accepts every value, the caret pattern over 4B accepts 4B01 and
rejects 3A01, the positional pattern 4*01 accepts 4F01 and rejects 4F02,
and a definition matches a telegram iff each of its four request-match
patterns accepts the corresponding rendered field. -/
theorem c9_pattern_language_spec :
    (∀ value : List Char, patMatches ['*'] value = true) ∧
    patMatches ['^', '4', 'B'] ['4', 'B', '0', '1'] = true ∧
    patMatches ['^', '4', 'B'] ['3', 'A', '0', '1'] = false ∧
    patMatches ['4', '*', '0', '1'] ['4', 'F', '0', '1'] = true ∧
    patMatches ['4', '*', '0', '1'] ['4', 'F', '0', '2'] = false ∧
    (∀ (m : RequestMatch) (t : TelegramHex), defMatches m t = true ↔
      (patMatches m.src t.src = true ∧ patMatches m.dst t.dst = true ∧
       patMatches m.pbsb t.pbsb = true ∧ patMatches m.data t.data = true)) := by
  refine ⟨fun value => rfl, by decide, by decide, by decide, by decide, fun m t => ?_⟩
  simp [defMatches, Bool.and_eq_true, and_assoc]

/-- Claim C10: the CRC step is the table lookup xored with the byte, and
the request checksum (resp. response checksum) is the left fold of the
step from 0 over src, dest, command high byte, command low byte, length
and the payload (resp. over length and the payload). -/
theorem c10_crc8_fold_characterization :
    (∀ c b, update_crc c b = Nat.xor (CRC_LOOKUP_TABLE.getD c 0) b) ∧
    (∀ r : EbusRequest, r.calc_crc8 =
      checksum ([r.src, r.dest, (r.pbsb >>> 8) % 256, r.pbsb &&& 0xFF, r.len] ++ r.data)) ∧
    (∀ s : EbusResponse, s.calc_crc8 = checksum (s.len :: s.data)) := by
  refine ⟨fun c b => rfl, fun r => rfl, fun s => rfl⟩
